import Mathlib

/-!
Verification development for the marketplace operator's leader-gated
lifecycle orchestrator (cmd/manager/main.go).

The embedding models:
* the `run` closure (the subsystem sequencer executed inside
  `OnStartedLeading`) as a function from the outcomes of its fallible
  collaborator calls to a trace of events plus a process outcome;
* the startup sequence of `main` (log-level parsing, version flag and the
  chain of fatal setup steps) as a function to an optional exit code;
* identity resolution (`POD_NAME` with hostname fallback);
* the `OnNewLeader` callback;
* the leader-election timing constants.

The leader-election protocol itself is implemented by the external
k8s.io/client-go leaderelection package, which is invoked but not part of
this repository; where a claim is decided by that protocol the model is
built from the specification text and marked `Modelled from the spec`.
-/

namespace Marketplace

/-- Leader-election retry period in seconds (Go: 30 * time.Second). -/
def defaultRetryPeriod : Nat := 30

/-- Leader-election renew deadline in seconds (Go: 60 * time.Second). -/
def defaultRenewDeadline : Nat := 60

/-- Leader-election lease duration in seconds (Go: 90 * time.Second). -/
def defaultLeaseDuration : Nat := 90

/-- Name of the ConfigMap used as the leader-election lock record. -/
def defaultLeaderElectionConfigMapName : String := "marketplace-operator-lock"

/-- Observable events of the `run` closure, in source order:
registering components, constructing the status reporter, populating the
global defaults, adding controllers to the manager, starting the status
reporter (obtaining its done channel), invoking the blocking `mgr.Start`,
that call returning, logging a manager error, and receiving on the
status-reporting done channel. -/
inductive RunEvent
  | registerComponents
  | setupReporter
  | populateGlobals
  | setupControllers
  | startReporting
  | startManager
  | managerReturned
  | logManagerError
  | waitReportingDone
deriving DecidableEq, Repr

/-- The call inside `run` whose failure triggered `logger.Fatal`. -/
inductive FatalReason
  | reporterConstruction
  | populateGlobalsFailed
  | addToManagerFailed
deriving DecidableEq, Repr

/-- How the `run` closure ends: a normal return of the `OnStartedLeading`
body, or a `logger.Fatal` call (which terminates the whole process). -/
inductive RunOutcome
  | normal
  | fatal (r : FatalReason)
deriving DecidableEq, Repr

/-- `logrus.Fatal` logs and then calls `os.Exit(1)`; a normal return of
`run` does not exit the process. -/
def RunOutcome.exitCode : RunOutcome → Option Nat
  | RunOutcome.normal => none
  | RunOutcome.fatal _ => some 1

/-- Which `status.Reporter` implementation `run` ends up using: the
`NoOpReporter` default, or the real ClusterOperator reporter built by
`status.NewReporter`. -/
inductive ReporterChoice
  | noOp
  | clusterOperator
deriving DecidableEq, Repr

/-- The inputs the `run` closure branches on: the `-clusterOperatorName`
flag and the success of each fallible collaborator call
(`status.NewReporter`, `defaults.PopulateGlobals`,
`controller.AddToManager`) plus whether the blocking `mgr.Start` returned
a non-nil error. -/
structure RunInput where
  clusterOperatorName : String
  newReporterOk : Bool
  populateGlobalsOk : Bool
  addToManagerOk : Bool
  mgrStartErr : Bool
deriving DecidableEq, Repr

/-- Result of the `run` closure: the ordered trace of events it performed,
its outcome, and the reporter it settled on (`none` when it died before
settling one). -/
structure RunResult where
  trace : List RunEvent
  outcome : RunOutcome
  reporter : Option ReporterChoice
deriving DecidableEq, Repr

/-- The tail of `run` after the status reporter has been chosen:
populate global defaults (fatal on error), add controllers to the manager
(fatal on error), start status reporting, call the blocking `mgr.Start`,
log its error if any, then wait on the status-reporting done channel. -/
def runBody (pgOk atmOk mgrErr : Bool) (t : List RunEvent)
    (rep : ReporterChoice) : RunResult :=
  let t1 := t ++ [RunEvent.populateGlobals]
  if pgOk then
    let t2 := t1 ++ [RunEvent.setupControllers]
    if atmOk then
      let t3 := t2 ++ [RunEvent.startReporting, RunEvent.startManager,
        RunEvent.managerReturned]
      let t4 := if mgrErr then t3 ++ [RunEvent.logManagerError] else t3
      { trace := t4 ++ [RunEvent.waitReportingDone],
        outcome := RunOutcome.normal, reporter := some rep }
    else
      { trace := t2, outcome := RunOutcome.fatal FatalReason.addToManagerFailed,
        reporter := some rep }
  else
    { trace := t1, outcome := RunOutcome.fatal FatalReason.populateGlobalsFailed,
      reporter := some rep }

/-- The `run` closure of main.go (lines 154-188): defaults to the
`NoOpReporter`; when `clusterOperatorName` is non-empty it constructs the
real reporter, dying on a construction error; then proceeds with
`runBody`. -/
def run (inp : RunInput) : RunResult :=
  if inp.clusterOperatorName = "" then
    runBody inp.populateGlobalsOk inp.addToManagerOk inp.mgrStartErr
      [RunEvent.registerComponents] ReporterChoice.noOp
  else if inp.newReporterOk then
    runBody inp.populateGlobalsOk inp.addToManagerOk inp.mgrStartErr
      [RunEvent.registerComponents, RunEvent.setupReporter]
      ReporterChoice.clusterOperator
  else
    { trace := [RunEvent.registerComponents, RunEvent.setupReporter],
      outcome := RunOutcome.fatal FatalReason.reporterConstruction,
      reporter := none }

/-- Index of the first occurrence of an event in a trace. -/
def firstIdx (e : RunEvent) : List RunEvent → Option Nat
  | [] => none
  | x :: xs =>
    if x = e then some 0 else Option.map (fun k => k + 1) (firstIdx e xs)

/-- `ordersBefore a b t` holds when both events occur in the trace and the
first occurrence of `a` is strictly before the first occurrence of `b`. -/
def ordersBefore (a b : RunEvent) (t : List RunEvent) : Bool :=
  match firstIdx a t, firstIdx b t with
  | some i, some j => decide (i < j)
  | _, _ => false

/-- The inputs `main` branches on before leader election starts, in source
order: whether `logrus.ParseLevel` succeeded, the `-version` flag, and the
success of `metrics.ServePrometheus`, `GetWatchNamespace`,
`config.GetConfig`, `SetConfigAPIAvailability` and `manager.New`. -/
structure MainInput where
  loglvlOk : Bool
  version : Bool
  servePrometheusOk : Bool
  watchNamespaceOk : Bool
  getConfigOk : Bool
  configAPIOk : Bool
  managerNewOk : Bool
deriving DecidableEq, Repr

/-- The startup sequence of `main` (lines 86-143): an unparseable log
level exits 1; then the version flag exits 0; then each fatal setup step
exits 1 on failure via `logger.Fatal`; otherwise startup proceeds
(`none`). -/
def mainStartup (inp : MainInput) : Option Nat :=
  if !inp.loglvlOk then some 1
  else if inp.version then some 0
  else if !inp.servePrometheusOk then some 1
  else if !inp.watchNamespaceOk then some 1
  else if !inp.getConfigOk then some 1
  else if !inp.configAPIOk then some 1
  else if !inp.managerNewOk then some 1
  else none

/-- Identity resolution in `main` (lines 195-202): take `POD_NAME`; when
it is empty fall back to `os.Hostname()`, whose failure (modelled as
`Except.error ()`) is routed to `logger.Fatal`. -/
def resolveIdentity (podName : String) (hostname : Except Unit String) :
    Except Unit String :=
  if podName = "" then hostname else Except.ok podName

/-- Exit behaviour of the identity-resolution step: `logger.Fatal` exits 1
when the hostname lookup failed, otherwise `main` proceeds. -/
def identityExitCode (podName : String) (hostname : Except Unit String) :
    Option Nat :=
  match resolveIdentity podName hostname with
  | Except.error _ => some 1
  | Except.ok _ => none

/-- Log entries emitted by the leader-election callbacks in main.go. -/
inductive LogEntry
  | becameLeader (id : String)
  | leaderElectionLostFor (id : String)
  | currentLeader (identity : String)
deriving DecidableEq, Repr

/-- Mutable program state visible to the callbacks: whether the root
context has been cancelled. -/
structure ProcState where
  cancelled : Bool
deriving DecidableEq, Repr

/-- The `OnNewLeader` callback (lines 230-235): returns silently when the
observed identity is this process's own, otherwise logs the current
leader; it touches no program state either way. -/
def onNewLeader (id : String) (s : ProcState) (identity : String) :
    ProcState × List LogEntry :=
  if identity = id then (s, [])
  else (s, [LogEntry.currentLeader identity])

/-- Modelled from the spec: the Leadership State Machine of section 4.2
(implemented by the external k8s.io/client-go leaderelection package that
main.go line 212 invokes; its source is not part of this repository).
States `Candidate` and `Leading`; `Lost` is transient, firing the
stopped-leading callback and returning to `Candidate` in a single step. -/
inductive LeaderState
  | candidate
  | leading
deriving DecidableEq, Repr

/-- Modelled from the spec: the events driving the leadership state
machine, outcomes of `acquireOrRenew` attempts. -/
inductive LeaderEvent
  | acquireGranted
  | acquireDenied
  | renewSucceeded
  | renewFailed
deriving DecidableEq, Repr

/-- Modelled from the spec: the lifecycle callbacks the state machine
fires (OnNewLeader is observability-only and handled separately). -/
inductive LeaderCallback
  | onStartedLeading
  | onStoppedLeading
deriving DecidableEq, Repr

/-- Modelled from the spec: machine state plus the count of leadership
episodes started so far. -/
structure LeaderMachine where
  state : LeaderState
  episodes : Nat
deriving DecidableEq, Repr

/-- Modelled from the spec: the transition function of the leadership
state machine. A candidate granted the lock becomes leading, counts one
new episode and fires the started-leading callback; a leader whose renewal
fails fires the stopped-leading callback exactly once and returns to
candidate; every other combination changes nothing. -/
def leaderStep : LeaderMachine → LeaderEvent → LeaderMachine × List LeaderCallback
  | ⟨LeaderState.candidate, n⟩, LeaderEvent.acquireGranted =>
    (⟨LeaderState.leading, n + 1⟩, [LeaderCallback.onStartedLeading])
  | ⟨LeaderState.candidate, n⟩, _ => (⟨LeaderState.candidate, n⟩, [])
  | ⟨LeaderState.leading, n⟩, LeaderEvent.renewFailed =>
    (⟨LeaderState.candidate, n⟩, [LeaderCallback.onStoppedLeading])
  | ⟨LeaderState.leading, n⟩, _ => (⟨LeaderState.leading, n⟩, [])

/-- Modelled from the spec: the shared Lock Record together with each
instance's local view, for `n` candidate processes sharing one record.
`owner` is the record's owner field in the coordination store; `leading i`
says whether instance `i` currently runs an `OnStartedLeading` episode. -/
structure LockSystem (n : Nat) where
  owner : Option (Fin n)
  leading : Fin n → Bool

/-- Modelled from the spec: initially the lock record is absent and no
instance is leading. -/
def LockSystem.init (n : Nat) : LockSystem n :=
  { owner := none, leading := fun _ => false }

/-- Modelled from the spec: the transitions of the shared-lock protocol.
All writes to the record are conditional (compare-and-swap): an acquire
succeeds only against an unowned record; a release succeeds only for the
current owner; an instance that observes it no longer owns the record ends
its episode; the lease may expire (clearing the owner field) only once the
owner has stopped leader-only work, per the spec's renew-deadline MUST. -/
inductive LockStep (n : Nat) : LockSystem n → LockSystem n → Prop
  | casAcquire (s : LockSystem n) (i : Fin n) (h : s.owner = none) :
    LockStep n s
      { owner := some i, leading := Function.update s.leading i true }
  | casRelease (s : LockSystem n) (i : Fin n) (h : s.owner = some i) :
    LockStep n s
      { owner := none, leading := Function.update s.leading i false }
  | observeLoss (s : LockSystem n) (i : Fin n) (h : s.owner ≠ some i) :
    LockStep n s
      { owner := s.owner, leading := Function.update s.leading i false }
  | leaseExpire (s : LockSystem n)
      (h : ∀ i, s.owner = some i → s.leading i = false) :
    LockStep n s { owner := none, leading := s.leading }

/-- States of the shared-lock protocol reachable from the initial state. -/
inductive LockReachable (n : Nat) : LockSystem n → Prop
  | init : LockReachable n (LockSystem.init n)
  | step (s t : LockSystem n) :
    LockReachable n s → LockStep n s t → LockReachable n t

/-- The key invariant: an instance runs an episode only while the lock
record names it as owner. -/
def LockInv {n : Nat} (s : LockSystem n) : Prop :=
  ∀ i, s.leading i = true → s.owner = some i

/-- A concrete reachable state of the two-instance protocol in which
instance 0 has acquired the lock. -/
def oneLeaderState : LockSystem 2 :=
  { owner := some 0,
    leading := Function.update (LockSystem.init 2).leading 0 true }

/-- Modelled from the spec: startup validation of the leadership timing
parameters ("configuring lease duration ≤ renew deadline must be rejected
or corrected at startup"; invariant lease duration > renew deadline >
retry period). The check is performed by the external leader-election
library when main.go line 212 hands it the configuration; its source is
not part of this repository. -/
def validateLeaderElectionTiming (lease renew retry : Nat) : Bool :=
  decide (renew < lease) && decide (retry < renew)

/-- Every step of the shared-lock protocol preserves the ownership
invariant. -/
theorem lockInv_step {n : Nat} {s t : LockSystem n} (hs : LockInv s)
    (hst : LockStep n s t) : LockInv t := by
  cases hst with
  | casAcquire i h =>
    intro j hj
    by_cases hji : j = i
    · subst hji
      rfl
    · have hj2 : Function.update s.leading i true j = true := hj
      rw [Function.update_noteq hji] at hj2
      exact absurd (hs j hj2) (by simp [h])
  | casRelease i h =>
    intro j hj
    have hj2 : Function.update s.leading i false j = true := hj
    by_cases hji : j = i
    · subst hji
      rw [Function.update_same] at hj2
      exact Bool.noConfusion hj2
    · rw [Function.update_noteq hji] at hj2
      have hsj := hs j hj2
      rw [h] at hsj
      exact absurd (Option.some.inj hsj) (fun he => hji he.symm)
  | observeLoss i h =>
    intro j hj
    have hj2 : Function.update s.leading i false j = true := hj
    by_cases hji : j = i
    · subst hji
      rw [Function.update_same] at hj2
      exact Bool.noConfusion hj2
    · rw [Function.update_noteq hji] at hj2
      exact hs j hj2
  | leaseExpire h =>
    intro j hj
    have hj2 : s.leading j = true := hj
    have hjf := h j (hs j hj2)
    rw [hjf] at hj2
    exact Bool.noConfusion hj2

/-- Every reachable state of the shared-lock protocol satisfies the
ownership invariant. -/
theorem lockReachable_inv {n : Nat} {s : LockSystem n}
    (h : LockReachable n s) : LockInv s := by
  induction h with
  | init => intro i hi; simp [LockSystem.init] at hi
  | step s t _ hst ih => exact lockInv_step ih hst

/-- C3: in every reachable state of the shared-lock protocol with `n`
concurrently running candidate instances and one lock record whose updates
are all conditional (compare-and-swap), at most one instance has an active
`OnStartedLeading` episode. -/
theorem onStartedLeading_mutual_exclusion {n : Nat} (s : LockSystem n)
    (h : LockReachable n s) :
    (Finset.univ.filter (fun i => s.leading i = true)).card ≤ 1 := by
  have hinv := lockReachable_inv h
  apply Finset.card_le_one.mpr
  intro a ha b hb
  rw [Finset.mem_filter] at ha hb
  have ha2 := hinv a ha.2
  have hb2 := hinv b hb.2
  rw [ha2] at hb2
  exact Option.some.inj hb2

/-- In the two-instance protocol, after instance 0 performs a successful
compare-and-swap acquisition, at most one instance is leading. -/
theorem onStartedLeading_mutual_exclusion_witness :
    (Finset.univ.filter (fun i => oneLeaderState.leading i = true)).card ≤ 1 :=
  onStartedLeading_mutual_exclusion oneLeaderState
    (LockReachable.step (LockSystem.init 2) oneLeaderState
      LockReachable.init (LockStep.casAcquire (LockSystem.init 2) 0 rfl))

/-- C4: the configured leadership timing parameters satisfy the strict
ordering lease duration > renew deadline > retry period, concretely
90s > 60s > 30s; the startup validation accepts them and rejects every
configuration with lease duration ≤ renew deadline. -/
theorem leader_election_timing_ordered :
    defaultRetryPeriod < defaultRenewDeadline ∧
    defaultRenewDeadline < defaultLeaseDuration ∧
    defaultLeaseDuration = 90 ∧ defaultRenewDeadline = 60 ∧
    defaultRetryPeriod = 30 ∧
    validateLeaderElectionTiming defaultLeaseDuration defaultRenewDeadline
      defaultRetryPeriod = true ∧
    (∀ lease renew retry, lease ≤ renew →
      validateLeaderElectionTiming lease renew retry = false) := by
  refine ⟨by decide, by decide, rfl, rfl, rfl, by decide, ?_⟩
  intro lease renew retry hle
  have hnot : ¬(renew < lease) := by omega
  simp [validateLeaderElectionTiming, hnot]

/-- A configuration with lease duration 50s ≤ renew deadline 60s is
rejected by the startup validation. -/
theorem leader_election_timing_ordered_witness :
    validateLeaderElectionTiming 50 60 30 = false :=
  leader_election_timing_ordered.2.2.2.2.2.2 50 60 30 (by decide)

/-- C2: when a leader's renewal fails, the machine fires the
stopped-leading callback exactly once and returns to the candidate state;
from there a granted acquisition starts a fresh episode, incrementing the
episode count by exactly one; the stopped-leading callback is fired only
on a renewal failure while leading, and the episode count increments only
on a granted acquisition while candidate. -/
theorem leadership_lost_then_reacquire (n : Nat) :
    leaderStep ⟨LeaderState.leading, n⟩ LeaderEvent.renewFailed
      = (⟨LeaderState.candidate, n⟩, [LeaderCallback.onStoppedLeading]) ∧
    (leaderStep ⟨LeaderState.leading, n⟩ LeaderEvent.renewFailed).2.count
      LeaderCallback.onStoppedLeading = 1 ∧
    leaderStep (leaderStep ⟨LeaderState.leading, n⟩ LeaderEvent.renewFailed).1
      LeaderEvent.acquireGranted
      = (⟨LeaderState.leading, n + 1⟩, [LeaderCallback.onStartedLeading]) ∧
    (∀ st m e, LeaderCallback.onStoppedLeading ∈ (leaderStep ⟨st, m⟩ e).2 →
      st = LeaderState.leading ∧ e = LeaderEvent.renewFailed) ∧
    (∀ st m e, (leaderStep ⟨st, m⟩ e).1.episodes = m ∨
      ((leaderStep ⟨st, m⟩ e).1.episodes = m + 1 ∧
        st = LeaderState.candidate ∧ e = LeaderEvent.acquireGranted ∧
        (leaderStep ⟨st, m⟩ e).2 = [LeaderCallback.onStartedLeading])) := by
  refine ⟨rfl, rfl, rfl, ?_, ?_⟩
  · intro st m e hmem
    cases st <;> cases e <;> simp [leaderStep] at hmem ⊢
  · intro st m e
    cases st <;> cases e <;> simp [leaderStep]

/-- A concrete leadership loss at episode count 0: the stopped-leading
callback fires only from the leading state on a renewal failure. -/
theorem leadership_lost_then_reacquire_witness :
    leaderStep ⟨LeaderState.leading, 0⟩ LeaderEvent.renewFailed
      = (⟨LeaderState.candidate, 0⟩, [LeaderCallback.onStoppedLeading]) ∧
    (LeaderState.leading = LeaderState.leading ∧
      LeaderEvent.renewFailed = LeaderEvent.renewFailed) :=
  ⟨(leadership_lost_then_reacquire 0).1,
    (leadership_lost_then_reacquire 0).2.2.2.1 LeaderState.leading 0
      LeaderEvent.renewFailed (by decide)⟩

/-- C1: in every leadership episode in which the `run` closure returns
normally, the trace starts status reporting before the blocking
`mgr.Start` call, that call returns before the status-reporting done
channel is received, and the receive is the last thing the
`OnStartedLeading` body does. -/
theorem reporter_before_manager_then_wait (inp : RunInput)
    (h : (run inp).outcome = RunOutcome.normal) :
    ordersBefore RunEvent.startReporting RunEvent.startManager
      (run inp).trace = true ∧
    ordersBefore RunEvent.startManager RunEvent.managerReturned
      (run inp).trace = true ∧
    ordersBefore RunEvent.managerReturned RunEvent.waitReportingDone
      (run inp).trace = true ∧
    (run inp).trace.getLast? = some RunEvent.waitReportingDone := by
  obtain ⟨name, nr, pg, atm, mse⟩ := inp
  by_cases hn : name = ""
  · subst hn
    revert h
    cases nr <;> cases pg <;> cases atm <;> cases mse <;> decide
  · revert h
    simp only [run, if_neg hn]
    cases nr <;> cases pg <;> cases atm <;> cases mse <;> decide

/-- With no ClusterOperator name configured and every collaborator
succeeding, the trace of `run` is correctly ordered. -/
theorem reporter_before_manager_then_wait_witness :
    ordersBefore RunEvent.startReporting RunEvent.startManager
      (run ⟨"", true, true, true, false⟩).trace = true ∧
    ordersBefore RunEvent.startManager RunEvent.managerReturned
      (run ⟨"", true, true, true, false⟩).trace = true ∧
    ordersBefore RunEvent.managerReturned RunEvent.waitReportingDone
      (run ⟨"", true, true, true, false⟩).trace = true ∧
    (run ⟨"", true, true, true, false⟩).trace.getLast?
      = some RunEvent.waitReportingDone :=
  reporter_before_manager_then_wait ⟨"", true, true, true, false⟩ (by decide)

/-- C5: when `defaults.PopulateGlobals` fails during a leadership episode
(the reporter having been settled), `run` dies through `logger.Fatal`: the
process exits with code 1 rather than merely ending the episode with a
normal return. -/
theorem populateGlobals_failure_fatal (inp : RunInput)
    (hrep : inp.clusterOperatorName = "" ∨ inp.newReporterOk = true)
    (hpg : inp.populateGlobalsOk = false) :
    (run inp).outcome = RunOutcome.fatal FatalReason.populateGlobalsFailed ∧
    RunOutcome.exitCode (run inp).outcome = some 1 ∧
    (run inp).outcome ≠ RunOutcome.normal := by
  obtain ⟨name, nr, pg, atm, mse⟩ := inp
  simp only at hrep hpg
  subst hpg
  by_cases hn : name = ""
  · subst hn
    revert hrep
    cases nr <;> cases atm <;> cases mse <;> decide
  · rcases hrep with hrep | hrep
    · exact absurd hrep hn
    · subst hrep
      simp only [run, if_neg hn]
      cases atm <;> cases mse <;> decide

/-- A defaults-population failure with no ClusterOperator name configured
kills the process with exit code 1. -/
theorem populateGlobals_failure_fatal_witness :
    (run ⟨"", true, false, true, false⟩).outcome
      = RunOutcome.fatal FatalReason.populateGlobalsFailed ∧
    RunOutcome.exitCode (run ⟨"", true, false, true, false⟩).outcome
      = some 1 ∧
    (run ⟨"", true, false, true, false⟩).outcome ≠ RunOutcome.normal :=
  populateGlobals_failure_fatal ⟨"", true, false, true, false⟩
    (Or.inl rfl) rfl

/-- C6: with an empty ClusterOperator name `run` keeps the no-op reporter;
with a non-empty name and a successful construction it uses the real
ClusterOperator reporter; with a non-empty name and a failed construction
it dies through `logger.Fatal` with exit code 1. -/
theorem reporter_choice_by_name (inp : RunInput) :
    (inp.clusterOperatorName = "" →
      (run inp).reporter = some ReporterChoice.noOp) ∧
    (inp.clusterOperatorName ≠ "" → inp.newReporterOk = true →
      (run inp).reporter = some ReporterChoice.clusterOperator) ∧
    (inp.clusterOperatorName ≠ "" → inp.newReporterOk = false →
      (run inp).outcome = RunOutcome.fatal FatalReason.reporterConstruction ∧
      RunOutcome.exitCode (run inp).outcome = some 1) := by
  obtain ⟨name, nr, pg, atm, mse⟩ := inp
  by_cases hn : name = ""
  · subst hn
    refine ⟨fun _ => ?_, fun hne => absurd rfl hne, fun hne => absurd rfl hne⟩
    cases nr <;> cases pg <;> cases atm <;> cases mse <;> decide
  · refine ⟨fun he => absurd he hn, fun _ hr => ?_, fun _ hr => ?_⟩ <;>
      subst hr <;> simp only [run, if_neg hn] <;>
      cases pg <;> cases atm <;> cases mse <;> decide

/-- Both reporter branches at concrete inputs: empty name yields the no-op
reporter, non-empty name with successful construction yields the
ClusterOperator reporter, and non-empty name with failed construction is
fatal. -/
theorem reporter_choice_by_name_witness :
    (run ⟨"", true, true, true, false⟩).reporter
      = some ReporterChoice.noOp ∧
    (run ⟨"marketplace", true, true, true, false⟩).reporter
      = some ReporterChoice.clusterOperator ∧
    ((run ⟨"marketplace", false, true, true, false⟩).outcome
      = RunOutcome.fatal FatalReason.reporterConstruction ∧
      RunOutcome.exitCode
        (run ⟨"marketplace", false, true, true, false⟩).outcome = some 1) :=
  ⟨(reporter_choice_by_name ⟨"", true, true, true, false⟩).1 rfl,
    (reporter_choice_by_name ⟨"marketplace", true, true, true, false⟩).2.1
      (by decide) rfl,
    (reporter_choice_by_name ⟨"marketplace", false, true, true, false⟩).2.2
      (by decide) rfl⟩

/-- C7: when the blocking `mgr.Start` returns an error, `run` logs the
error and returns normally: the process does not exit, the error log
appears after the call returns, and the status-reporting done channel is
still awaited afterwards. -/
theorem manager_error_logged_not_fatal (inp : RunInput)
    (hrep : inp.clusterOperatorName = "" ∨ inp.newReporterOk = true)
    (hpg : inp.populateGlobalsOk = true)
    (hatm : inp.addToManagerOk = true)
    (herr : inp.mgrStartErr = true) :
    (run inp).outcome = RunOutcome.normal ∧
    RunOutcome.exitCode (run inp).outcome = none ∧
    RunEvent.logManagerError ∈ (run inp).trace ∧
    ordersBefore RunEvent.managerReturned RunEvent.logManagerError
      (run inp).trace = true ∧
    ordersBefore RunEvent.logManagerError RunEvent.waitReportingDone
      (run inp).trace = true := by
  obtain ⟨name, nr, pg, atm, mse⟩ := inp
  simp only at hrep hpg hatm herr
  subst hpg
  subst hatm
  subst herr
  by_cases hn : name = ""
  · subst hn
    cases nr <;> decide
  · rcases hrep with hrep | hrep
    · exact absurd hrep hn
    · subst hrep
      simp only [run, if_neg hn]
      decide

/-- A manager error with no ClusterOperator name configured ends the
episode normally, logging the error between the blocking call's return and
the wait on the done channel. -/
theorem manager_error_logged_not_fatal_witness :
    (run ⟨"", true, true, true, true⟩).outcome = RunOutcome.normal ∧
    RunOutcome.exitCode (run ⟨"", true, true, true, true⟩).outcome = none ∧
    RunEvent.logManagerError ∈ (run ⟨"", true, true, true, true⟩).trace ∧
    ordersBefore RunEvent.managerReturned RunEvent.logManagerError
      (run ⟨"", true, true, true, true⟩).trace = true ∧
    ordersBefore RunEvent.logManagerError RunEvent.waitReportingDone
      (run ⟨"", true, true, true, true⟩).trace = true :=
  manager_error_logged_not_fatal ⟨"", true, true, true, true⟩
    (Or.inl rfl) rfl rfl rfl

/-- C8 counterexample: with `POD_NAME` empty and a hostname lookup that
succeeds with the empty string, identity resolution accepts the empty
identity and proceeds without a fatal exit, refuting the unconditional
non-emptiness of the resulting identity. -/
theorem identity_can_be_empty :
    resolveIdentity "" (Except.ok "") = Except.ok "" ∧
    identityExitCode "" (Except.ok "") = none := by
  constructor <;> rfl

/-- C8 (amended): identity is `POD_NAME` when that is non-empty and the
hostname otherwise; a hostname-lookup failure is fatal with exit code 1;
the resulting identity is non-empty whenever `POD_NAME` is non-empty or
the fallback hostname is non-empty. -/
theorem identity_resolution (podName hostName : String)
    (hn : Except Unit String) :
    (podName ≠ "" → resolveIdentity podName hn = Except.ok podName) ∧
    (podName = "" → resolveIdentity podName hn = hn) ∧
    (podName = "" → hn = Except.error () →
      identityExitCode podName hn = some 1) ∧
    (podName = "" → hn = Except.ok hostName → hostName ≠ "" →
      resolveIdentity podName hn = Except.ok hostName ∧ hostName ≠ "") := by
  refine ⟨fun hne => ?_, fun he => ?_, fun he hf => ?_, fun he hh hne => ?_⟩
  · simp [resolveIdentity, hne]
  · simp [resolveIdentity, he]
  · subst he
    subst hf
    rfl
  · subst he
    subst hh
    exact ⟨by simp [resolveIdentity], hne⟩

/-- Identity resolution at concrete inputs: a non-empty `POD_NAME` wins, a
hostname failure is fatal, and a non-empty hostname yields a non-empty
identity. -/
theorem identity_resolution_witness :
    resolveIdentity "pod-A" (Except.ok "host-B") = Except.ok "pod-A" ∧
    identityExitCode "" (Except.error ()) = some 1 ∧
    (resolveIdentity "" (Except.ok "host-B") = Except.ok "host-B" ∧
      "host-B" ≠ "") :=
  ⟨(identity_resolution "pod-A" "host-B" (Except.ok "host-B")).1 (by decide),
    (identity_resolution "" "host-B" (Except.error ())).2.2.1 rfl rfl,
    (identity_resolution "" "host-B" (Except.ok "host-B")).2.2.2 rfl rfl
      (by decide)⟩

/-- C9 counterexample: with the version flag set but an unparseable log
level, `main` exits 1, not 0 — the log-level check at lines 89-93 precedes
the version check at lines 97-100. -/
theorem version_flag_can_exit_nonzero :
    mainStartup ⟨false, true, true, true, true, true, true⟩ = some 1 ∧
    mainStartup ⟨false, true, true, true, true, true, true⟩ ≠ some 0 := by
  constructor <;> decide

/-- C9 (amended): when the version flag is set and the log level parses,
`main` exits 0; an unparseable log level exits 1 even when the version
flag is set; exit code 0 happens only through the version short-circuit
with a parseable log level; without the version flag every exit is with
code 1. -/
theorem startup_exit_codes (inp : MainInput) :
    (inp.loglvlOk = true → inp.version = true → mainStartup inp = some 0) ∧
    (inp.loglvlOk = false → mainStartup inp = some 1) ∧
    (mainStartup inp = some 0 →
      inp.version = true ∧ inp.loglvlOk = true) ∧
    (inp.version = false →
      mainStartup inp = none ∨ mainStartup inp = some 1) := by
  obtain ⟨l, v, sp, wn, gc, ca, mn⟩ := inp
  cases l <;> cases v <;> cases sp <;> cases wn <;> cases gc <;> cases ca <;>
    cases mn <;> decide

/-- Startup exits at concrete inputs: a clean version query exits 0 and a
bad log level without the version flag exits 1. -/
theorem startup_exit_codes_witness :
    mainStartup ⟨true, true, true, true, true, true, true⟩ = some 0 ∧
    mainStartup ⟨false, false, true, true, true, true, true⟩ = some 1 :=
  ⟨(startup_exit_codes ⟨true, true, true, true, true, true, true⟩).1 rfl rfl,
    (startup_exit_codes ⟨false, false, true, true, true, true, true⟩).2.1 rfl⟩

/-- C10: the `OnNewLeader` callback never changes program state; when the
observed identity is this process's own it logs nothing, and otherwise it
logs exactly the observed leader identity. -/
theorem onNewLeader_observability_only (id identity : String)
    (s : ProcState) :
    (onNewLeader id s identity).1 = s ∧
    (identity = id → (onNewLeader id s identity).2 = []) ∧
    (identity ≠ id →
      (onNewLeader id s identity).2 = [LogEntry.currentLeader identity]) := by
  refine ⟨?_, fun he => ?_, fun hne => ?_⟩
  · by_cases he : identity = id <;> simp [onNewLeader, he]
  · simp [onNewLeader, he]
  · simp [onNewLeader, hne]

/-- The `OnNewLeader` callback at concrete inputs: silent on self, logging
the leader otherwise, with the state untouched in both cases. -/
theorem onNewLeader_observability_only_witness :
    (onNewLeader "pod-A" ⟨false⟩ "pod-A").1 = (⟨false⟩ : ProcState) ∧
    (onNewLeader "pod-A" ⟨false⟩ "pod-A").2 = [] ∧
    (onNewLeader "pod-A" ⟨false⟩ "pod-B").2
      = [LogEntry.currentLeader "pod-B"] :=
  ⟨(onNewLeader_observability_only "pod-A" "pod-A" ⟨false⟩).1,
    (onNewLeader_observability_only "pod-A" "pod-A" ⟨false⟩).2.1 rfl,
    (onNewLeader_observability_only "pod-A" "pod-B" ⟨false⟩).2.2 (by decide)⟩

end Marketplace
